import Mathlib

/-!
Verification model of the AIoT smart attendance and door-lock system.

The Python sources are shallowly embedded as pure Lean functions:

* `attendance/services/face_recognition_service.py`: the gallery cache held in
  `FaceRecognitionService` (four parallel lists), `calculate_average_encoding`
  (numpy mean along axis 0), `load_registered_faces` / `refresh_cache`, and
  `recognize_face`.  Floating-point values are modelled by rationals; the one
  irrational primitive, the square root inside `np.linalg.norm`, is abstracted
  as an explicit function parameter `sq : ℚ → ℚ` (no property of it is needed
  by any theorem below).  Wall-clock timing fields (`time_ms`), the performance
  counters and all console printing are omitted; the skip reports printed by
  `load_registered_faces` are modelled as a returned list of messages.
* `door_system.py`: `save_attendance`, the `handle_motion` attempt loop,
  the per-face attendance-marking step of `live_camera_attendance`,
  `ConnectionManager.connect_camera` / `capture_frame`, and
  `DoorSystem.cleanup`.  External camera / recognition outcomes are supplied
  as explicit inputs; the Django attendance table is a list of records.
* `door.py`: `DoorSystem.cleanup` (the ordering of its teardown actions).
-/

set_option maxHeartbeats 1000000

/-- A face embedding vector (numpy float array modelled over ℚ). -/
abbrev Vec := List ℚ

/-- A face bounding box `(top, right, bottom, left)` in pixel coordinates,
as produced by `face_recognition.face_locations`. -/
abbrev FaceLoc := ℤ × ℤ × ℤ × ℤ

/-- A row of the Django `Student` model, restricted to the fields the core
reads: `id`, `name`, the stored `face_encoding` blob and `is_active`.
`face_encoding = none` models a blob on which `json_to_encodings` raises
(absent or corrupt JSON); `some l` models a blob that decodes to the list of
enrollment embeddings `l` (possibly empty). -/
structure Student where
  id : Nat
  name : String
  face_encoding : Option (List Vec)
  is_active : Bool
deriving DecidableEq

/-- A row of the Django `Attendance` model, restricted to the fields the core
reads and writes.  `date` is the calendar day of the record's timestamp. -/
structure AttendanceRecord where
  student_id : Nat
  date : Nat
  entry_type : String
  location : String
deriving DecidableEq

/-- `FaceRecognitionService.calculate_average_encoding`: numpy's
`np.mean(encodings, axis=0)`, i.e. the component-wise sum of the rows divided
by the number of rows.  numpy's mean of an empty sequence is undefined (it
yields NaN together with a runtime warning, not a vector), modelled here as
`none`. -/
def calculate_average_encoding : List Vec → Option Vec
  | [] => none
  | v :: vs =>
    some ((vs.foldl (List.zipWith (· + ·)) v).map
      (fun x => x / ((v :: vs).length : ℚ)))

/-- The in-memory state of `FaceRecognitionService`: the match tolerance, the
minimum accepted face size, and the four parallel cache lists filled by
`load_registered_faces`. -/
structure FaceRecognitionService where
  tolerance : ℚ
  min_face_size : ℤ
  known_face_encodings : List Vec
  known_face_names : List String
  known_face_ids : List Nat
  known_students : List Student

/-- `FaceRecognitionService.__init__`: the cache lists start empty and
`min_face_size` is set to 100. -/
def initialService (tolerance : ℚ) : FaceRecognitionService :=
  { tolerance := tolerance
    min_face_size := 100
    known_face_encodings := []
    known_face_names := []
    known_face_ids := []
    known_students := [] }

/-- One iteration of the student loop in `load_registered_faces`: a blob on
which decoding raises appends an error report and loads nothing; a blob that
decodes to an empty list is skipped silently (`if encodings:`); otherwise the
average encoding and the student's name, id and row are appended to the four
cache lists in lockstep. -/
def load_step (acc : FaceRecognitionService × List String) (st : Student) :
    FaceRecognitionService × List String :=
  match st.face_encoding with
  | none => (acc.1, acc.2 ++ ["Error loading " ++ st.name])
  | some encs =>
    match calculate_average_encoding encs with
    | none => acc
    | some avg =>
      ({ acc.1 with
          known_face_encodings := acc.1.known_face_encodings ++ [avg]
          known_face_names := acc.1.known_face_names ++ [st.name]
          known_face_ids := acc.1.known_face_ids ++ [st.id]
          known_students := acc.1.known_students ++ [st] },
        acc.2)

/-- `FaceRecognitionService.load_registered_faces`: clears the four cache
lists, then folds `load_step` over the active students
(`Student.objects.filter(is_active=True)`).  Returns the reloaded service,
the count `len(self.known_face_encodings)` and the list of per-student error
reports (printed in the source). -/
def load_registered_faces (svc : FaceRecognitionService)
    (students : List Student) : FaceRecognitionService × Nat × List String :=
  let cleared := { svc with
    known_face_encodings := []
    known_face_names := []
    known_face_ids := []
    known_students := [] }
  let out := (students.filter (fun st => st.is_active)).foldl load_step
    (cleared, [])
  (out.1, out.1.known_face_encodings.length, out.2)

/-- `FaceRecognitionService.refresh_cache`: alias for
`load_registered_faces`. -/
def refresh_cache (svc : FaceRecognitionService) (students : List Student) :
    FaceRecognitionService × Nat × List String :=
  load_registered_faces svc students

/-- `face_recognition.face_distance(known, q)`:
`np.linalg.norm(known - q, axis=1)`, the Euclidean distance from `q` to each
cached encoding.  `sq` abstracts the floating-point square root. -/
def face_distance (sq : ℚ → ℚ) (known : List Vec) (q : Vec) : List ℚ :=
  known.map (fun enc => sq ((List.zipWith (fun a b => (a - b) ^ 2) enc q).sum))

/-- `np.argmin`: index of the first minimal element of a list (0 on the empty
list, where numpy raises). -/
def argmin : List ℚ → Nat
  | [] => 0
  | x :: xs => if xs.getD (argmin xs) x < x then argmin xs + 1 else 0

/-- `FaceRecognitionService.is_face_valid`: rejects a box whose width
(`right - left`) or height (`bottom - top`) is below `min_face_size`. -/
def is_face_valid (svc : FaceRecognitionService) (loc : FaceLoc) : Bool :=
  let width := loc.2.1 - loc.2.2.2
  let height := loc.2.2.1 - loc.1
  if width < svc.min_face_size ∨ height < svc.min_face_size then false
  else true

/-- Area key `(loc[2] - loc[0]) * (loc[1] - loc[3])` used to pick the largest
face. -/
def faceArea (loc : FaceLoc) : ℤ := (loc.2.2.1 - loc.1) * (loc.2.1 - loc.2.2.2)

/-- Python's `max(face_locations, key=area)`: the first box of maximal area
(a later box replaces the current best only when strictly larger). -/
def maxByArea (f : FaceLoc) (fs : List FaceLoc) : FaceLoc :=
  fs.foldl (fun acc l => if faceArea acc < faceArea l then l else acc) f

/-- A captured frame, abstracting what the external `face_recognition`
library computes from the image: the detected face boxes (in detector order)
and, for each box, the encoding `face_encodings(rgb, [box])` produces there
(`none` when encoding extraction fails). -/
structure Frame where
  face_locations : List FaceLoc
  encodingAt : FaceLoc → Option Vec

/-- The result dictionary of `FaceRecognitionService.recognize_face`
(the `time_ms` timing field is omitted). -/
structure RecognitionResult where
  success : Bool
  student_id : Option Nat
  student_name : Option String
  student : Option Student
  confidence : ℚ
  distance : ℚ
  face_location : Option FaceLoc
  error : Option String
deriving DecidableEq

/-- The default result dictionary built at the top of `recognize_face`. -/
def initResult : RecognitionResult :=
  { success := false
    student_id := none
    student_name := none
    student := none
    confidence := 0
    distance := 1
    face_location := none
    error := none }

/-- `FaceRecognitionService.recognize_face`: fail fast on an empty cache,
detect faces, take the largest box, validate its size, extract the encoding,
take the Euclidean distance to every cached encoding, and accept the argmin
iff its distance is at most the tolerance (success carries the parallel-list
entries at the argmin index, `distance` and `confidence = 1 - distance`;
failure carries the best distance and the error string). -/
def recognize_face (sq : ℚ → ℚ) (svc : FaceRecognitionService)
    (frame : Frame) : RecognitionResult :=
  if svc.known_face_encodings.isEmpty then
    { initResult with error := some "No registered faces in cache" }
  else
    match frame.face_locations with
    | [] => { initResult with error := some "No face detected" }
    | f :: fs =>
      let loc := maxByArea f fs
      if is_face_valid svc loc = false then
        { initResult with
            face_location := some loc
            error := some "Face too small or invalid" }
      else
        match frame.encodingAt loc with
        | none =>
          { initResult with
              face_location := some loc
              error := some "Could not generate face encoding" }
        | some q =>
          let dists := face_distance sq svc.known_face_encodings q
          let i := argmin dists
          let best := dists.getD i 0
          if best ≤ svc.tolerance then
            { initResult with
                success := true
                face_location := some loc
                student_id := svc.known_face_ids.get? i
                student_name := svc.known_face_names.get? i
                student := svc.known_students.get? i
                distance := best
                confidence := 1 - best }
          else
            { initResult with
                face_location := some loc
                error := some "No match found"
                distance := best }

/-- Door-control match tolerance `RECOGNITION_TOLERANCE = 0.5`
(`door_system.py`). -/
def RECOGNITION_TOLERANCE : ℚ := 1 / 2

/-- Attempt budget `RECOGNITION_ATTEMPTS = 3` (`door_system.py`). -/
def RECOGNITION_ATTEMPTS : Nat := 3

/-- Inter-attempt delay `CAPTURE_DELAY = 0.5` seconds (`door_system.py`). -/
def CAPTURE_DELAY : ℚ := 1 / 2

/-- Predicate of the Django query
`Attendance.objects.filter(student=student, timestamp__date=today,
entry_type='success')`. -/
def isSuccessRecord (sid today : Nat) (r : AttendanceRecord) : Bool :=
  r.student_id == sid && r.date == today && r.entry_type == "success"

/-- Number of persisted success-type records for a student on a day. -/
def countSuccessToday (db : List AttendanceRecord) (sid today : Nat) : Nat :=
  (db.filter (isSuccessRecord sid today)).length

/-- `save_attendance(student, entry_type)` from `door_system.py` (identical in
`door.py`): if a success-type record for the student already exists today,
return `False` without creating anything; otherwise create one record at
location `'Main Door'` and return `True`. -/
def save_attendance (db : List AttendanceRecord) (student : Student)
    (today : Nat) (entry_type : String) : List AttendanceRecord × Bool :=
  if db.any (isSuccessRecord student.id today) then (db, false)
  else
    (db ++ [{ student_id := student.id, date := today,
              entry_type := entry_type, location := "Main Door" }], true)

/-- `n` repeated invocations of the grant path `save_attendance(student)` on
the same day. -/
def iterate_save (db : List AttendanceRecord) (student : Student)
    (today : Nat) : Nat → List AttendanceRecord
  | 0 => db
  | n + 1 => (save_attendance (iterate_save db student today n) student today
      "success").1

/-- `MIN_CONFIDENCE = 0.45` in `live_camera_attendance`. -/
def MIN_CONFIDENCE : ℚ := 45 / 100

/-- `ATTENDANCE_COOLDOWN = 30` seconds in `live_camera_attendance`. -/
def ATTENDANCE_COOLDOWN : ℚ := 30

/-- The per-face status assigned by `live_camera_attendance`. -/
inductive MarkStatus where
  | unknown
  | marked
  | already
  | cooldown
  | low_conf
deriving DecidableEq

/-- State produced by one attendance-marking step of
`live_camera_attendance`: the status shown for the face, the attendance table
and the in-memory `recent_attendance` cooldown map. -/
structure MarkOutcome where
  status : MarkStatus
  db : List AttendanceRecord
  recent : Nat → ℚ

/-- The `recent_attendance` dictionary: lookup with default 0 is built into
the function representation; this is the `recent_attendance[student.id] =
current_time` update. -/
def updateRecent (recent : Nat → ℚ) (sid : Nat) (t : ℚ) : Nat → ℚ :=
  fun j => if j = sid then t else recent j

/-- The attendance-marking step `live_camera_attendance` performs for one face
already matched to `student` with the given `confidence`, at wall-clock time
`current_time`: confidence below `MIN_CONFIDENCE` is reported `low_conf`; a
match within `ATTENDANCE_COOLDOWN` of the in-memory timestamp is reported
`cooldown` and persists nothing; past the cooldown, an identity already
recorded today is reported `already` (no duplicate record) and otherwise one
record is created at location `'Camera Attendance'` with status `marked`; in
both past-cooldown branches the in-memory timestamp is set to
`current_time`. -/
def process_match (db : List AttendanceRecord) (recent : Nat → ℚ)
    (student : Student) (confidence current_time : ℚ) (today : Nat) :
    MarkOutcome :=
  if MIN_CONFIDENCE ≤ confidence then
    let last_marked := recent student.id
    if ATTENDANCE_COOLDOWN ≤ current_time - last_marked then
      if db.any (isSuccessRecord student.id today) then
        { status := .already, db := db,
          recent := updateRecent recent student.id current_time }
      else
        { status := .marked
          db := db ++ [{ student_id := student.id, date := today,
                         entry_type := "success",
                         location := "Camera Attendance" }]
          recent := updateRecent recent student.id current_time }
    else
      { status := .cooldown, db := db, recent := recent }
  else
    { status := .low_conf, db := db, recent := recent }

/-- Outcome of one attempt of the `handle_motion` loop, abstracting the
camera and the recognition pipeline: the camera health flag was found false,
`capture_frame` returned `None`, or a frame was captured and
`recognize_face` either accepted a student (with a confidence) or not. -/
inductive AttemptResult where
  | cameraLost
  | captureFailed
  | frame (recognized : Option (Student × ℚ))
deriving DecidableEq

/-- The `for attempt in range(RECOGNITION_ATTEMPTS)` loop of
`DoorSystem.handle_motion` (`door_system.py`): starting at attempt index `i`
with `budget` attempts left, stop early on camera loss, capture failure or
the first accepted match; return the match (if any) together with the number
of attempts consumed. -/
def motion_loop (env : Nat → AttemptResult) :
    Nat → Nat → Option (Student × ℚ) × Nat
  | i, 0 => (none, i)
  | i, budget + 1 =>
    match env i with
    | .cameraLost => (none, i)
    | .captureFailed => (none, i)
    | .frame none => motion_loop env (i + 1) budget
    | .frame (some sc) => (some sc, i + 1)

/-- Observable outcome of `DoorSystem.handle_motion`: the recognized student
(if any), how many capture attempts ran, the serial commands sent, the
attendance table after the grant path, and the warning log entries. -/
structure MotionOutcome where
  recognized : Option Student
  attempts_used : Nat
  commands : List String
  db : List AttendanceRecord
  logs : List String

/-- `DoorSystem.handle_motion` (`door_system.py`): return immediately when the
camera flag is down; otherwise run the attempt loop; on a match send `UNLOCK`
and call `save_attendance`; on exhaustion send `DENIED` and log the denial. -/
def handle_motion (env : Nat → AttemptResult) (camera_ok : Bool)
    (db : List AttendanceRecord) (today : Nat) : MotionOutcome :=
  if camera_ok = false then
    { recognized := none, attempts_used := 0, commands := [], db := db,
      logs := [] }
  else
    let out := motion_loop env 0 RECOGNITION_ATTEMPTS
    match out.1 with
    | some sc =>
      { recognized := some sc.1
        attempts_used := out.2
        commands := ["UNLOCK"]
        db := (save_attendance db sc.1 today "success").1
        logs := [] }
    | none =>
      { recognized := none
        attempts_used := out.2
        commands := ["DENIED"]
        db := db
        logs := ["Access denied: Unknown face"] }

/-- A captured camera frame reduced to its `shape[:2]` = (height, width). -/
abbrev CamFrame := Nat × Nat

/-- A camera device as `cv2.VideoCapture` presents it to `connect_camera`:
whether `isOpened()` is true, and what the test `read()` returns. -/
structure CameraDevice where
  opens : Bool
  firstRead : Option CamFrame
deriving DecidableEq

/-- The connection state of `ConnectionManager` relevant to the camera:
whether `self.camera` holds a handle, and the `camera_ok` health flag. -/
structure ConnectionManager where
  camera_connected : Bool
  camera_ok : Bool
deriving DecidableEq

/-- `ConnectionManager.connect_camera`: opens the device (the handle is
stored regardless), fails with `"Camera cannot be opened"` when
`isOpened()` is false, fails with `"Camera opened but cannot capture"` when
the test read fails, and otherwise sets the health flag and reports the frame
size. -/
def connect_camera (mgr : ConnectionManager) (dev : CameraDevice) :
    ConnectionManager × Bool × String :=
  if dev.opens = false then
    ({ mgr with camera_connected := true, camera_ok := false }, false,
      "Camera cannot be opened")
  else
    match dev.firstRead with
    | none =>
      ({ mgr with camera_connected := true, camera_ok := false }, false,
        "Camera opened but cannot capture")
    | some hw =>
      ({ mgr with camera_connected := true, camera_ok := true }, true,
        "Camera ready (" ++ toString hw.2 ++ "x" ++ toString hw.1 ++ ")")

/-- `ConnectionManager.capture_frame`: returns `None` without touching the
device while the health flag is false; otherwise performs one read (`read` is
its outcome) and drops the flag on a failed read. -/
def capture_frame (mgr : ConnectionManager) (read : Option CamFrame) :
    ConnectionManager × Option CamFrame :=
  if mgr.camera_ok = false then (mgr, none)
  else
    match read with
    | some f => (mgr, some f)
    | none => ({ mgr with camera_ok := false }, none)

/-- One observable action of a `cleanup` routine. -/
inductive CleanupEvent where
  | sendLock
  | releaseCamera
  | closeArduino
  | destroyWindows
deriving DecidableEq

/-- `DoorSystem.cleanup` in `door_system.py`: send `LOCK` when the system
requires the controller and its health flag is up, then
`ConnectionManager.cleanup()` (release camera, close controller, destroy
windows). -/
def door_system_cleanup (require_arduino arduino_ok : Bool) :
    List CleanupEvent :=
  (if require_arduino && arduino_ok then [CleanupEvent.sendLock] else []) ++
    [CleanupEvent.releaseCamera, CleanupEvent.closeArduino,
      CleanupEvent.destroyWindows]

/-- `DoorSystem.cleanup` in `door.py`: release the camera when a handle
exists, then (when a controller handle exists) send `LOCK` and close it, then
destroy the windows. -/
def door_cleanup (has_camera has_arduino : Bool) : List CleanupEvent :=
  (if has_camera then [CleanupEvent.releaseCamera] else []) ++
    (if has_arduino then [CleanupEvent.sendLock, CleanupEvent.closeArduino]
      else []) ++
    [CleanupEvent.destroyWindows]

/-- An identity that contributes a gallery entry: its blob decodes without
raising and yields at least one embedding. -/
def goodStudent (st : Student) : Bool :=
  (st.face_encoding.bind calculate_average_encoding).isSome

/-- The four parallel cache lists have equal lengths. -/
def cache_consistent (s : FaceRecognitionService) : Prop :=
  s.known_face_names.length = s.known_face_encodings.length ∧
  s.known_face_ids.length = s.known_face_encodings.length ∧
  s.known_students.length = s.known_face_encodings.length

/-- A concrete one-entry gallery used to exercise the recognition path. -/
def witnessService : FaceRecognitionService :=
  { tolerance := 1 / 2
    min_face_size := 100
    known_face_encodings := [[0, 0]]
    known_face_names := ["Alice"]
    known_face_ids := [7]
    known_students := [{ id := 7, name := "Alice",
                         face_encoding := some [[0, 0]], is_active := true }] }

/-- A concrete frame with one valid face whose encoding is `[0, 0]`. -/
def witnessFrame : Frame :=
  { face_locations := [(0, 200, 200, 0)]
    encodingAt := fun _ => some [0, 0] }

/-! ### Helper lemmas about `argmin` -/

theorem argmin_lt_length (l : List ℚ) (h : l ≠ []) : argmin l < l.length := by
  induction l with
  | nil => exact absurd rfl h
  | cons x xs ih =>
    simp only [argmin]
    split
    · next hlt =>
      cases xs with
      | nil => simp [List.getD] at hlt
      | cons z zs =>
        exact Nat.succ_lt_succ (ih (by simp))
    · simp

theorem argmin_getD_le (l : List ℚ) : ∀ y ∈ l, l.getD (argmin l) 0 ≤ y := by
  induction l with
  | nil => intro y hy; cases hy
  | cons x xs ih =>
    intro y hy
    simp only [argmin]
    split
    · next hlt =>
      cases xs with
      | nil => simp [List.getD] at hlt
      | cons z zs =>
        have hr : argmin (z :: zs) < (z :: zs).length :=
          argmin_lt_length _ (by simp)
        have hget : (z :: zs).getD (argmin (z :: zs)) x =
            (z :: zs).getD (argmin (z :: zs)) 0 := by
          rw [List.getD_eq_getElem _ x hr, List.getD_eq_getElem _ 0 hr]
        rw [List.getD_cons_succ]
        rcases List.mem_cons.mp hy with rfl | hy'
        · rw [← hget]; exact le_of_lt hlt
        · exact ih y hy'
    · next hnlt =>
      rw [List.getD_cons_zero]
      rcases List.mem_cons.mp hy with rfl | hy'
      · exact le_refl y
      · cases xs with
        | nil => cases hy'
        | cons z zs =>
          have hr : argmin (z :: zs) < (z :: zs).length :=
            argmin_lt_length _ (by simp)
          have hget : (z :: zs).getD (argmin (z :: zs)) x =
              (z :: zs).getD (argmin (z :: zs)) 0 := by
            rw [List.getD_eq_getElem _ x hr, List.getD_eq_getElem _ 0 hr]
          have hxle : x ≤ (z :: zs).getD (argmin (z :: zs)) x :=
            le_of_not_lt hnlt
          exact le_trans (hget ▸ hxle) (ih y hy')

theorem argmin_getD_mem (l : List ℚ) (h : l ≠ []) :
    l.getD (argmin l) 0 ∈ l := by
  rw [List.getD_eq_getElem _ _ (argmin_lt_length l h)]
  exact List.getElem_mem _

theorem getD_argmin_eq_min (l : List ℚ) (m : ℚ) (hm : m ∈ l)
    (hmin : ∀ y ∈ l, m ≤ y) : l.getD (argmin l) 0 = m := by
  have hne : l ≠ [] := by rintro rfl; cases hm
  exact le_antisymm (argmin_getD_le l m hm) (hmin _ (argmin_getD_mem l hne))

/-! ### Claim C1 -/

/-- C1: whenever the gallery cache is non-empty and the frame yields a
validated primary face with an encoding, `recognize_face` succeeds if and
only if the minimum distance `m` to the cached encodings is at most the
tolerance (boundary inclusive); on success `confidence = 1 - m` and
`distance = m`, and on failure the error is `"No match found"` with the best
distance `m` still reported. -/
theorem recognize_face_tolerance_boundary
    (sq : ℚ → ℚ) (svc : FaceRecognitionService) (frame : Frame)
    (f : FaceLoc) (fs : List FaceLoc) (q : Vec) (m : ℚ)
    (hg : svc.known_face_encodings ≠ [])
    (hfaces : frame.face_locations = f :: fs)
    (hvalid : is_face_valid svc (maxByArea f fs) = true)
    (henc : frame.encodingAt (maxByArea f fs) = some q)
    (hmem : m ∈ face_distance sq svc.known_face_encodings q)
    (hmin : ∀ y ∈ face_distance sq svc.known_face_encodings q, m ≤ y) :
    ((recognize_face sq svc frame).success = true ↔ m ≤ svc.tolerance) ∧
    ((recognize_face sq svc frame).success = true →
      (recognize_face sq svc frame).confidence = 1 - m ∧
      (recognize_face sq svc frame).distance = m) ∧
    ((recognize_face sq svc frame).success = false →
      (recognize_face sq svc frame).error = some "No match found" ∧
      (recognize_face sq svc frame).distance = m) := by
  have hempty : svc.known_face_encodings.isEmpty = false := by
    cases h : svc.known_face_encodings
    · exact absurd h hg
    · rfl
  have hbest : (face_distance sq svc.known_face_encodings q).getD
      (argmin (face_distance sq svc.known_face_encodings q)) 0 = m :=
    getD_argmin_eq_min _ m hmem hmin
  have hbest2 : ((face_distance sq
      svc.known_face_encodings q)[argmin
        (face_distance sq svc.known_face_encodings q)]?).getD 0 = m := by
    simpa using hbest
  by_cases htol : m ≤ svc.tolerance
  · simp [recognize_face, hempty, hfaces, hvalid, henc, hbest2, htol,
      initResult]
  · simp [recognize_face, hempty, hfaces, hvalid, henc, hbest2, htol,
      initResult]

theorem recognize_face_tolerance_boundary_witness :
    ((recognize_face (fun x => x) witnessService witnessFrame).success = true ↔
      (0 : ℚ) ≤ witnessService.tolerance) ∧
    ((recognize_face (fun x => x) witnessService witnessFrame).success = true →
      (recognize_face (fun x => x) witnessService witnessFrame).confidence =
        1 - 0 ∧
      (recognize_face (fun x => x) witnessService witnessFrame).distance = 0) ∧
    ((recognize_face (fun x => x) witnessService witnessFrame).success =
        false →
      (recognize_face (fun x => x) witnessService witnessFrame).error =
        some "No match found" ∧
      (recognize_face (fun x => x) witnessService witnessFrame).distance =
        0) :=
  recognize_face_tolerance_boundary (fun x => x) witnessService witnessFrame
    (0, 200, 200, 0) [] [0, 0] 0 (by decide) rfl (by decide) rfl
    (by norm_num [face_distance, witnessService])
    (by norm_num [face_distance, witnessService])

/-! ### Claim C4 -/

/-- C4: with an empty gallery cache, `recognize_face` returns the
no-registered-faces error for every input frame (the result is one fixed
dictionary independent of the frame, so no detection or encoding work can
influence it); a reload over a store with zero active identities leaves the
cache empty, so every subsequent call returns this error. -/
theorem empty_gallery_fails_fast (sq : ℚ → ℚ) (svc : FaceRecognitionService)
    (students : List Student) :
    (svc.known_face_encodings = [] → ∀ frame,
      recognize_face sq svc frame =
        { initResult with error := some "No registered faces in cache" }) ∧
    (students.filter (fun st => st.is_active) = [] →
      (load_registered_faces svc students).1.known_face_encodings = [] ∧
      ∀ frame, recognize_face sq (load_registered_faces svc students).1 frame =
        { initResult with error := some "No registered faces in cache" }) := by
  have base : ∀ s : FaceRecognitionService, s.known_face_encodings = [] →
      ∀ frame, recognize_face sq s frame =
        { initResult with error := some "No registered faces in cache" } := by
    intro s hs frame
    have : s.known_face_encodings.isEmpty = true := by simp [hs]
    simp [recognize_face, this]
  refine ⟨base svc, ?_⟩
  intro hact
  have hload : (load_registered_faces svc students).1.known_face_encodings =
      [] := by
    simp [load_registered_faces, hact]
  exact ⟨hload, base _ hload⟩

theorem empty_gallery_fails_fast_witness :
    recognize_face (fun x => x) (initialService (3 / 5)) witnessFrame =
      { initResult with error := some "No registered faces in cache" } ∧
    (load_registered_faces witnessService
        [{ id := 3, name := "Bob", face_encoding := some [[1, 1]],
           is_active := false }]).1.known_face_encodings = [] :=
  ⟨(empty_gallery_fails_fast (fun x => x) (initialService (3 / 5)) []).1 rfl
      witnessFrame,
    ((empty_gallery_fails_fast (fun x => x) witnessService
        [{ id := 3, name := "Bob", face_encoding := some [[1, 1]],
           is_active := false }]).2 (by decide)).1⟩

/-! ### Claim C2 -/

theorem count_zero_iff_not_any (db : List AttendanceRecord)
    (sid today : Nat) :
    countSuccessToday db sid today = 0 ↔
      db.any (isSuccessRecord sid today) = false := by
  constructor
  · intro h
    rw [List.any_eq_false]
    intro r hr hsat
    have hmem : r ∈ db.filter (isSuccessRecord sid today) :=
      List.mem_filter.mpr ⟨hr, hsat⟩
    rw [countSuccessToday, List.length_eq_zero] at h
    rw [h] at hmem
    cases hmem
  · intro h
    rw [countSuccessToday, List.length_eq_zero, List.filter_eq_nil_iff]
    intro r hr hsat
    exact absurd hsat (by simpa using List.any_eq_false.mp h r hr)

theorem save_attendance_creates (db : List AttendanceRecord) (s : Student)
    (today : Nat) (et : String)
    (h : db.any (isSuccessRecord s.id today) = false) :
    save_attendance db s today et =
      (db ++ [{ student_id := s.id, date := today, entry_type := et,
                location := "Main Door" }], true) := by
  simp [save_attendance, h]

theorem save_attendance_skips (db : List AttendanceRecord) (s : Student)
    (today : Nat) (et : String)
    (h : db.any (isSuccessRecord s.id today) = true) :
    save_attendance db s today et = (db, false) := by
  simp [save_attendance, h]

theorem iterate_save_stable (db : List AttendanceRecord) (s : Student)
    (today : Nat) (h : db.any (isSuccessRecord s.id today) = true) :
    ∀ m, iterate_save db s today m = db := by
  intro m
  induction m with
  | zero => rfl
  | succ k ih =>
    simp [iterate_save, ih, save_attendance_skips _ _ _ _ h]

/-- C2: starting from a day with no persisted success record for the
student, the first `save_attendance` call creates one record and returns
`True`, every later same-day call returns `False` without creating another,
and after any positive number of calls exactly one success record for that
student and day is persisted. -/
theorem same_day_attendance_idempotent (db : List AttendanceRecord)
    (s : Student) (today : Nat)
    (h : countSuccessToday db s.id today = 0) (n : Nat) :
    countSuccessToday (iterate_save db s today (n + 1)) s.id today = 1 ∧
    (save_attendance db s today "success").2 = true ∧
    (1 ≤ n →
      (save_attendance (iterate_save db s today n) s today "success").2 =
        false) := by
  have hany : db.any (isSuccessRecord s.id today) = false :=
    (count_zero_iff_not_any db s.id today).mp h
  have hrec : isSuccessRecord s.id today
      { student_id := s.id, date := today, entry_type := "success",
        location := "Main Door" } = true := by
    simp [isSuccessRecord]
  have h1 : iterate_save db s today 1 =
      db ++ [{ student_id := s.id, date := today, entry_type := "success",
               location := "Main Door" }] := by
    simp [iterate_save, save_attendance_creates db s today "success" hany]
  have hany1 : (iterate_save db s today 1).any
      (isSuccessRecord s.id today) = true := by
    rw [h1, List.any_append]
    simp [hrec]
  have hstable : ∀ m, 1 ≤ m →
      iterate_save db s today m = iterate_save db s today 1 := by
    intro m hm
    obtain ⟨k, rfl⟩ := Nat.exists_eq_add_of_le hm
    induction k with
    | zero => rfl
    | succ j ih =>
      have : 1 + (j + 1) = (1 + j) + 1 := by omega
      rw [this]
      show (save_attendance (iterate_save db s today (1 + j)) s today
        "success").1 = _
      rw [ih (by omega), save_attendance_skips _ _ _ _ hany1]
  refine ⟨?_, ?_, ?_⟩
  · rw [hstable (n + 1) (by omega), h1]
    have h0 : (db.filter (isSuccessRecord s.id today)).length = 0 := h
    simp [countSuccessToday, List.filter_append, hrec, h0]
  · rw [save_attendance_creates db s today "success" hany]
  · intro hn
    rw [hstable n hn, save_attendance_skips _ _ _ _ hany1]

theorem same_day_attendance_idempotent_witness :
    countSuccessToday
      (iterate_save []
        { id := 7, name := "Alice", face_encoding := some [[0, 0]],
          is_active := true } 20 3)
      7 20 = 1 ∧
    (save_attendance []
      { id := 7, name := "Alice", face_encoding := some [[0, 0]],
        is_active := true } 20 "success").2 = true :=
  ⟨(same_day_attendance_idempotent []
      { id := 7, name := "Alice", face_encoding := some [[0, 0]],
        is_active := true } 20 (by decide) 2).1,
    (same_day_attendance_idempotent []
      { id := 7, name := "Alice", face_encoding := some [[0, 0]],
        is_active := true } 20 (by decide) 2).2.1⟩

/-! ### Claim C3 -/

theorem process_match_db_length (db : List AttendanceRecord)
    (recent : Nat → ℚ) (s : Student) (c t : ℚ) (today : Nat) :
    (process_match db recent s c t today).db.length ≤ db.length + 1 := by
  unfold process_match
  by_cases h1 : MIN_CONFIDENCE ≤ c
  · by_cases h2 : ATTENDANCE_COOLDOWN ≤ t - recent s.id
    · by_cases h3 : db.any (isSuccessRecord s.id today) = true
      · simp [h1, h2, h3]
      · simp [h1, h2, h3]
    · simp [h1, h2]
  · simp [h1]

theorem process_match_in_cooldown (db : List AttendanceRecord)
    (recent : Nat → ℚ) (s : Student) (c t : ℚ) (today : Nat)
    (h : t - recent s.id < ATTENDANCE_COOLDOWN) :
    process_match db recent s c t today =
      if MIN_CONFIDENCE ≤ c then
        { status := .cooldown, db := db, recent := recent }
      else
        { status := .low_conf, db := db, recent := recent } := by
  unfold process_match
  by_cases hc : MIN_CONFIDENCE ≤ c
  · simp [hc, not_le.mpr h]
  · simp [hc]

/-- C3: for a face matched at distance `d ≤` the door tolerance (so its
confidence `1 - d` automatically clears `MIN_CONFIDENCE = 0.45`): within the
30-second cooldown window the step reports `cooldown` and persists nothing
and leaves the cooldown map untouched; past the cooldown with a record
already persisted today it reports `already` without writing a duplicate;
past the cooldown with no record today it writes exactly one record and sets
the in-memory timestamp to the current time; and any second match for the
same identity within one cooldown window of the first leaves at most one new
record in total. -/
theorem live_attendance_cooldown_idempotent (db : List AttendanceRecord)
    (recent : Nat → ℚ) (s : Student) (d t : ℚ) (today : Nat)
    (hd : d ≤ RECOGNITION_TOLERANCE) :
    (t - recent s.id < ATTENDANCE_COOLDOWN →
      process_match db recent s (1 - d) t today =
        { status := .cooldown, db := db, recent := recent }) ∧
    (ATTENDANCE_COOLDOWN ≤ t - recent s.id →
      db.any (isSuccessRecord s.id today) = true →
      (process_match db recent s (1 - d) t today).status = .already ∧
      (process_match db recent s (1 - d) t today).db = db) ∧
    (ATTENDANCE_COOLDOWN ≤ t - recent s.id →
      db.any (isSuccessRecord s.id today) = false →
      (process_match db recent s (1 - d) t today).status = .marked ∧
      (process_match db recent s (1 - d) t today).db =
        db ++ [{ student_id := s.id, date := today, entry_type := "success",
                 location := "Camera Attendance" }] ∧
      (process_match db recent s (1 - d) t today).recent s.id = t) ∧
    (∀ d₂ t₂, d₂ ≤ RECOGNITION_TOLERANCE → t ≤ t₂ →
      t₂ - t < ATTENDANCE_COOLDOWN →
      (process_match (process_match db recent s (1 - d) t today).db
          (process_match db recent s (1 - d) t today).recent
          s (1 - d₂) t₂ today).db.length ≤ db.length + 1) := by
  have hconf : MIN_CONFIDENCE ≤ 1 - d := by
    rw [MIN_CONFIDENCE]
    rw [RECOGNITION_TOLERANCE] at hd
    linarith
  refine ⟨?_, ?_, ?_, ?_⟩
  · intro hcool
    rw [process_match_in_cooldown db recent s (1 - d) t today hcool,
      if_pos hconf]
  · intro hcool halready
    constructor <;> simp [process_match, hconf, hcool, halready]
  · intro hcool hfresh
    refine ⟨?_, ?_, ?_⟩ <;>
      simp [process_match, hconf, hcool, hfresh, updateRecent]
  · intro d₂ t₂ hd₂ hle hwin
    have hconf₂ : MIN_CONFIDENCE ≤ 1 - d₂ := by
      rw [MIN_CONFIDENCE]
      rw [RECOGNITION_TOLERANCE] at hd₂
      linarith
    by_cases hcool : ATTENDANCE_COOLDOWN ≤ t - recent s.id
    · by_cases halready : db.any (isSuccessRecord s.id today) = true
      · have ho : process_match db recent s (1 - d) t today =
            { status := .already, db := db,
              recent := updateRecent recent s.id t } := by
          simp [process_match, hconf, hcool, halready]
        rw [ho]
        exact le_trans (process_match_db_length _ _ _ _ _ _) (by simp)
      · have halready' : db.any (isSuccessRecord s.id today) = false :=
          Bool.eq_false_iff.mpr halready
        have ho : process_match db recent s (1 - d) t today =
            { status := .marked
              db := db ++ [{ student_id := s.id, date := today,
                             entry_type := "success",
                             location := "Camera Attendance" }]
              recent := updateRecent recent s.id t } := by
          simp [process_match, hconf, hcool, halready']
        rw [ho]
        have hupd : updateRecent recent s.id t s.id = t := by
          simp [updateRecent]
        have hcool₂ : t₂ - updateRecent recent s.id t s.id <
            ATTENDANCE_COOLDOWN := by rw [hupd]; exact hwin
        rw [process_match_in_cooldown _ _ _ _ _ _ hcool₂, if_pos hconf₂]
        simp
    · have ho : process_match db recent s (1 - d) t today =
          { status := .cooldown, db := db, recent := recent } := by
        rw [process_match_in_cooldown db recent s (1 - d) t today
          (not_le.mp hcool), if_pos hconf]
      rw [ho]
      exact le_trans (process_match_db_length _ _ _ _ _ _) (by simp)

theorem live_attendance_cooldown_idempotent_witness :
    (process_match [] (fun _ => 0)
      { id := 7, name := "Alice", face_encoding := some [[0, 0]],
        is_active := true } (1 - 1 / 2) 50 20).status = MarkStatus.marked ∧
    (process_match [] (fun _ => 0)
      { id := 7, name := "Alice", face_encoding := some [[0, 0]],
        is_active := true } (1 - 1 / 2) 50 20).db =
      [] ++ [{ student_id := 7, date := 20, entry_type := "success",
               location := "Camera Attendance" }] ∧
    (process_match [] (fun _ => 0)
      { id := 7, name := "Alice", face_encoding := some [[0, 0]],
        is_active := true } (1 - 1 / 2) 50 20).recent 7 = 50 :=
  (live_attendance_cooldown_idempotent [] (fun _ => 0)
      { id := 7, name := "Alice", face_encoding := some [[0, 0]],
        is_active := true } (1 / 2) 50 20 (by norm_num
          [RECOGNITION_TOLERANCE])).2.2.1
    (by norm_num [ATTENDANCE_COOLDOWN]) (by decide)

/-! ### Claim C5 -/

/-- C5: in `handle_motion` with a healthy camera, when every one of the three
attempts captures a frame and none is accepted, the loop runs exactly
`RECOGNITION_ATTEMPTS = 3` attempts and then takes the deny path (`DENIED`
command sent, denial logged, no attendance written); when attempt `k` is the
first to produce an accepted match, the loop stops there after `k + 1`
attempts and takes the grant path. -/
theorem attempt_budget_termination (env : Nat → AttemptResult)
    (db : List AttendanceRecord) (today : Nat) :
    RECOGNITION_ATTEMPTS = 3 ∧
    ((∀ i, i < RECOGNITION_ATTEMPTS → env i = AttemptResult.frame none) →
      handle_motion env true db today =
        { recognized := none, attempts_used := 3, commands := ["DENIED"],
          db := db, logs := ["Access denied: Unknown face"] }) ∧
    (∀ k s c, k < RECOGNITION_ATTEMPTS →
      (∀ j, j < k → env j = AttemptResult.frame none) →
      env k = AttemptResult.frame (some (s, c)) →
      (handle_motion env true db today).recognized = some s ∧
      (handle_motion env true db today).attempts_used = k + 1 ∧
      (handle_motion env true db today).commands = ["UNLOCK"]) := by
  refine ⟨rfl, ?_, ?_⟩
  · intro h
    have e0 := h 0 (by norm_num [RECOGNITION_ATTEMPTS])
    have e1 := h 1 (by norm_num [RECOGNITION_ATTEMPTS])
    have e2 := h 2 (by norm_num [RECOGNITION_ATTEMPTS])
    simp [handle_motion, RECOGNITION_ATTEMPTS, motion_loop, e0, e1, e2]
  · intro k s c hk hprev henv
    rw [RECOGNITION_ATTEMPTS] at hk
    interval_cases k
    · refine ⟨?_, ?_, ?_⟩ <;>
        simp [handle_motion, RECOGNITION_ATTEMPTS, motion_loop, henv]
    · have e0 := hprev 0 (by norm_num)
      refine ⟨?_, ?_, ?_⟩ <;>
        simp [handle_motion, RECOGNITION_ATTEMPTS, motion_loop, e0, henv]
    · have e0 := hprev 0 (by norm_num)
      have e1 := hprev 1 (by norm_num)
      refine ⟨?_, ?_, ?_⟩ <;>
        simp [handle_motion, RECOGNITION_ATTEMPTS, motion_loop, e0, e1, henv]

theorem attempt_budget_termination_witness :
    handle_motion (fun _ => AttemptResult.frame none) true [] 20 =
      { recognized := none, attempts_used := 3, commands := ["DENIED"],
        db := [], logs := ["Access denied: Unknown face"] } ∧
    (handle_motion
        (fun i => if i = 1 then
          AttemptResult.frame (some
            ({ id := 7, name := "Alice", face_encoding := some [[0, 0]],
               is_active := true }, 9 / 10))
          else AttemptResult.frame none) true [] 20).recognized =
      some { id := 7, name := "Alice", face_encoding := some [[0, 0]],
             is_active := true } ∧
    (handle_motion
        (fun i => if i = 1 then
          AttemptResult.frame (some
            ({ id := 7, name := "Alice", face_encoding := some [[0, 0]],
               is_active := true }, 9 / 10))
          else AttemptResult.frame none) true [] 20).attempts_used = 2 :=
  ⟨(attempt_budget_termination (fun _ => AttemptResult.frame none) [] 20).2.1
      (fun _ _ => rfl),
    ((attempt_budget_termination
        (fun i => if i = 1 then
          AttemptResult.frame (some
            ({ id := 7, name := "Alice", face_encoding := some [[0, 0]],
               is_active := true }, 9 / 10))
          else AttemptResult.frame none) [] 20).2.2 1
        { id := 7, name := "Alice", face_encoding := some [[0, 0]],
          is_active := true } (9 / 10) (by norm_num [RECOGNITION_ATTEMPTS])
        (by intro j hj; interval_cases j; rfl) rfl).1,
    ((attempt_budget_termination
        (fun i => if i = 1 then
          AttemptResult.frame (some
            ({ id := 7, name := "Alice", face_encoding := some [[0, 0]],
               is_active := true }, 9 / 10))
          else AttemptResult.frame none) [] 20).2.2 1
        { id := 7, name := "Alice", face_encoding := some [[0, 0]],
          is_active := true } (9 / 10) (by norm_num [RECOGNITION_ATTEMPTS])
        (by intro j hj; interval_cases j; rfl) rfl).2.1⟩

/-! ### Claim C6 -/

theorem zip_add_getD (a : Vec) : ∀ (b : Vec) (i : Nat), i < a.length →
    i < b.length →
    (List.zipWith (· + ·) a b).getD i 0 = a.getD i 0 + b.getD i 0 := by
  induction a with
  | nil => intro b i h1 h2; simp at h1
  | cons x xs ih =>
    intro b i h1 h2
    cases b with
    | nil => simp at h2
    | cons y ys =>
      cases i with
      | zero => simp
      | succ j =>
        simpa using ih ys j (by simpa using h1) (by simpa using h2)

theorem foldl_zip_add_spec (d : Nat) (vs : List Vec) : ∀ v : Vec,
    v.length = d → (∀ w ∈ vs, w.length = d) →
    (vs.foldl (List.zipWith (· + ·)) v).length = d ∧
    ∀ i, i < d → (vs.foldl (List.zipWith (· + ·)) v).getD i 0 =
      v.getD i 0 + (vs.map (fun w => w.getD i 0)).sum := by
  induction vs with
  | nil => intro v hv _; simp [hv]
  | cons w ws ih =>
    intro v hv hvs
    have hw : w.length = d := hvs w (by simp)
    have hvw : (List.zipWith (· + ·) v w).length = d := by
      rw [List.length_zipWith, hv, hw, min_self]
    obtain ⟨hl, hg⟩ := ih (List.zipWith (· + ·) v w) hvw
      (fun x hx => hvs x (by simp [hx]))
    refine ⟨by simpa using hl, ?_⟩
    intro i hi
    rw [List.foldl_cons, hg i hi,
      zip_add_getD v w i (hv ▸ hi) (hw ▸ hi)]
    simp [add_assoc]

/-- C6: on any non-empty list of equal-length vectors
`calculate_average_encoding` returns the component-wise arithmetic mean, and
on the empty list it is undefined (`none` — not a zero vector or any other
default vector). -/
theorem average_encoding_componentwise_mean (encodings : List Vec)
    (d : Nat) :
    calculate_average_encoding ([] : List Vec) = none ∧
    (encodings ≠ [] → (∀ v ∈ encodings, v.length = d) →
      ∃ avg, calculate_average_encoding encodings = some avg ∧
        avg.length = d ∧
        ∀ i, i < d → avg.getD i 0 =
          (encodings.map (fun v => v.getD i 0)).sum /
            (encodings.length : ℚ)) := by
  refine ⟨rfl, ?_⟩
  intro hne hlen
  cases encodings with
  | nil => exact absurd rfl hne
  | cons v vs =>
    obtain ⟨hl, hg⟩ := foldl_zip_add_spec d vs v (hlen v (by simp))
      (fun w hw => hlen w (by simp [hw]))
    refine ⟨_, rfl, by simpa using hl, ?_⟩
    intro i hi
    have him : i < ((vs.foldl (List.zipWith (· + ·)) v).map
        (fun x => x / (((v :: vs).length : Nat) : ℚ))).length := by
      simpa [hl] using hi
    rw [List.getD_eq_getElem _ _ him, List.getElem_map,
      ← List.getD_eq_getElem (vs.foldl (List.zipWith (· + ·)) v) 0
        (by simpa [hl] using hi),
      hg i hi]
    simp [div_eq_mul_inv]

theorem average_encoding_componentwise_mean_witness :
    calculate_average_encoding ([] : List Vec) = none ∧
    ∃ avg, calculate_average_encoding [[1, 3], [3, 5]] = some avg ∧
      avg.length = 2 ∧
      ∀ i, i < 2 → avg.getD i 0 =
        (([[1, 3], [3, 5]] : List Vec).map (fun v => v.getD i 0)).sum /
          (([[1, 3], [3, 5]] : List Vec).length : ℚ) :=
  ⟨(average_encoding_componentwise_mean [] 0).1,
    (average_encoding_componentwise_mean [[1, 3], [3, 5]] 2).2 (by decide)
      (by
        intro v hv
        rcases List.mem_cons.mp hv with h | hv'
        · simp [h]
        · rcases List.mem_cons.mp hv' with h | h
          · simp [h]
          · cases h)⟩

/-! ### Claim C7 -/

theorem load_foldl_spec (l : List Student) :
    ∀ (s : FaceRecognitionService) (errs : List String),
    (l.foldl load_step (s, errs)).1.known_face_encodings =
      s.known_face_encodings ++
        l.filterMap (fun st => st.face_encoding.bind
          calculate_average_encoding) ∧
    (l.foldl load_step (s, errs)).1.known_face_names =
      s.known_face_names ++ (l.filter goodStudent).map (fun st => st.name) ∧
    (l.foldl load_step (s, errs)).1.known_face_ids =
      s.known_face_ids ++ (l.filter goodStudent).map (fun st => st.id) ∧
    (l.foldl load_step (s, errs)).1.known_students =
      s.known_students ++ l.filter goodStudent ∧
    (l.foldl load_step (s, errs)).2 =
      errs ++ (l.filter (fun st => st.face_encoding.isNone)).map
        (fun st => "Error loading " ++ st.name) := by
  induction l with
  | nil => intro s errs; simp
  | cons st sts ih =>
    intro s errs
    rcases hfe : st.face_encoding with _ | encs
    · have hgood : goodStudent st = false := by simp [goodStudent, hfe]
      simp [load_step, hfe, hgood, ih]
    · rcases hce : calculate_average_encoding encs with _ | avg
      · have hgood : goodStudent st = false := by
          simp [goodStudent, hfe, hce]
        simp [load_step, hfe, hce, hgood, ih]
      · have hgood : goodStudent st = true := by simp [goodStudent, hfe, hce]
        simp [load_step, hfe, hce, hgood, ih]

theorem filterMap_bind_length (l : List Student) :
    (l.filterMap (fun st => st.face_encoding.bind
      calculate_average_encoding)).length =
    (l.filter goodStudent).length := by
  induction l with
  | nil => rfl
  | cons st sts ih =>
    rcases h : st.face_encoding.bind calculate_average_encoding with _ | avg
    · have hg : goodStudent st = false := by simp [goodStudent, h]
      simp [List.filterMap_cons, h, hg, ih]
    · have hg : goodStudent st = true := by simp [goodStudent, h]
      simp [List.filterMap_cons, h, hg, ih]

/-- C7: `load_registered_faces` first clears the cache (the result is
independent of the previous cache contents), then loads exactly one entry —
the mean of the decoded embeddings — for each active identity whose blob
decodes to at least one embedding; identities whose blob is absent or corrupt
are skipped with a report and the reload continues; the returned count equals
the number of entries actually loaded. -/
theorem gallery_reload_spec (svc : FaceRecognitionService)
    (students : List Student) :
    (load_registered_faces svc students).1.known_face_encodings =
      (students.filter (fun st => st.is_active)).filterMap
        (fun st => st.face_encoding.bind calculate_average_encoding) ∧
    (load_registered_faces svc students).1.known_face_names =
      ((students.filter (fun st => st.is_active)).filter goodStudent).map
        (fun st => st.name) ∧
    (load_registered_faces svc students).1.known_face_ids =
      ((students.filter (fun st => st.is_active)).filter goodStudent).map
        (fun st => st.id) ∧
    (load_registered_faces svc students).1.known_students =
      (students.filter (fun st => st.is_active)).filter goodStudent ∧
    (load_registered_faces svc students).2.1 =
      ((students.filter (fun st => st.is_active)).filter goodStudent).length ∧
    (load_registered_faces svc students).2.2 =
      ((students.filter (fun st => st.is_active)).filter
        (fun st => st.face_encoding.isNone)).map
        (fun st => "Error loading " ++ st.name) := by
  obtain ⟨h1, h2, h3, h4, h5⟩ :=
    load_foldl_spec (students.filter (fun st => st.is_active))
      { svc with
        known_face_encodings := []
        known_face_names := []
        known_face_ids := []
        known_students := [] } []
  refine ⟨?_, ?_, ?_, ?_, ?_, ?_⟩
  · simpa [load_registered_faces] using h1
  · simpa [load_registered_faces] using h2
  · simpa [load_registered_faces] using h3
  · simpa [load_registered_faces] using h4
  · show (load_registered_faces svc students).1.known_face_encodings.length
      = _
    rw [show (load_registered_faces svc students).1.known_face_encodings =
      (students.filter (fun st => st.is_active)).filterMap
        (fun st => st.face_encoding.bind calculate_average_encoding)
      from by simpa [load_registered_faces] using h1]
    exact filterMap_bind_length _
  · simpa [load_registered_faces] using h5

/-! ### Claim C8 -/

/-- C8: `connect_camera` on a device that cannot be opened returns
`(False, "Camera cannot be opened")` with the health flag left false; and as
long as the health flag is false, every `capture_frame` call returns `None`
(and leaves the state — in particular the flag — unchanged, so all
subsequent calls do the same), without raising. -/
theorem camera_open_failure_is_soft (mgr : ConnectionManager)
    (dev : CameraDevice) (h : dev.opens = false) :
    connect_camera mgr dev =
      ({ mgr with camera_connected := true, camera_ok := false }, false,
        "Camera cannot be opened") ∧
    (∀ (m : ConnectionManager) (read : Option CamFrame),
      m.camera_ok = false → capture_frame m read = (m, none)) := by
  constructor
  · simp [connect_camera, h]
  · intro m read hm
    simp [capture_frame, hm]

theorem camera_open_failure_is_soft_witness :
    connect_camera { camera_connected := false, camera_ok := false }
        { opens := false, firstRead := none } =
      ({ camera_connected := true, camera_ok := false }, false,
        "Camera cannot be opened") ∧
    capture_frame { camera_connected := true, camera_ok := false }
        (some (480, 640)) =
      ({ camera_connected := true, camera_ok := false }, none) :=
  ⟨(camera_open_failure_is_soft
      { camera_connected := false, camera_ok := false }
      { opens := false, firstRead := none } rfl).1,
    (camera_open_failure_is_soft
      { camera_connected := false, camera_ok := false }
      { opens := false, firstRead := none } rfl).2
      { camera_connected := true, camera_ok := false } (some (480, 640)) rfl⟩

/-! ### Claim C9 -/

/-- C9 counterexample: in `door.py`'s `cleanup` with both peripherals
present, the camera is released (trace index 0) strictly before the `LOCK`
command is sent (trace index 1), so the claim that `LOCK` is always sent
before any peripheral is released is false on this shutdown path. -/
theorem lock_before_release_counterexample :
    door_cleanup true true =
      [CleanupEvent.releaseCamera, CleanupEvent.sendLock,
        CleanupEvent.closeArduino, CleanupEvent.destroyWindows] ∧
    (door_cleanup true true).indexOf CleanupEvent.releaseCamera <
      (door_cleanup true true).indexOf CleanupEvent.sendLock := by
  decide

/-- C9 (amended): on shutdown, `door_system.py`'s `cleanup` sends `LOCK`
exactly when the controller is required and healthy, and then it precedes
the release of every peripheral; `door.py`'s `cleanup` sends `LOCK` exactly
when a controller handle exists and sends it before the controller
connection is closed, but after the camera has already been released. -/
theorem lock_ordering_amended :
    (∀ require_arduino arduino_ok : Bool,
      ((require_arduino && arduino_ok) = true →
        door_system_cleanup require_arduino arduino_ok =
          [CleanupEvent.sendLock, CleanupEvent.releaseCamera,
            CleanupEvent.closeArduino, CleanupEvent.destroyWindows]) ∧
      (CleanupEvent.sendLock ∈ door_system_cleanup require_arduino arduino_ok
        ↔ (require_arduino && arduino_ok) = true)) ∧
    (∀ has_camera has_arduino : Bool,
      (has_arduino = true →
        (door_cleanup has_camera has_arduino).indexOf CleanupEvent.sendLock <
          (door_cleanup has_camera has_arduino).indexOf
            CleanupEvent.closeArduino) ∧
      (CleanupEvent.sendLock ∈ door_cleanup has_camera has_arduino ↔
        has_arduino = true)) := by
  decide

theorem lock_ordering_amended_witness :
    door_system_cleanup true true =
      [CleanupEvent.sendLock, CleanupEvent.releaseCamera,
        CleanupEvent.closeArduino, CleanupEvent.destroyWindows] ∧
    (door_cleanup false true).indexOf CleanupEvent.sendLock <
      (door_cleanup false true).indexOf CleanupEvent.closeArduino :=
  ⟨(lock_ordering_amended.1 true true).1 rfl,
    (lock_ordering_amended.2 false true).1 rfl⟩

/-! ### Claim C10 -/

theorem load_cache_consistent (svc : FaceRecognitionService)
    (students : List Student) :
    cache_consistent (load_registered_faces svc students).1 := by
  obtain ⟨h1, h2, h3, h4, _⟩ :=
    load_foldl_spec (students.filter (fun st => st.is_active))
      { svc with
        known_face_encodings := []
        known_face_names := []
        known_face_ids := []
        known_students := [] } []
  have e1 : (load_registered_faces svc students).1.known_face_encodings =
      (students.filter (fun st => st.is_active)).filterMap
        (fun st => st.face_encoding.bind calculate_average_encoding) := by
    simpa [load_registered_faces] using h1
  have e2 : (load_registered_faces svc students).1.known_face_names =
      ((students.filter (fun st => st.is_active)).filter goodStudent).map
        (fun st => st.name) := by
    simpa [load_registered_faces] using h2
  have e3 : (load_registered_faces svc students).1.known_face_ids =
      ((students.filter (fun st => st.is_active)).filter goodStudent).map
        (fun st => st.id) := by
    simpa [load_registered_faces] using h3
  have e4 : (load_registered_faces svc students).1.known_students =
      (students.filter (fun st => st.is_active)).filter goodStudent := by
    simpa [load_registered_faces] using h4
  refine ⟨?_, ?_, ?_⟩ <;>
    simp [e1, e2, e3, e4, filterMap_bind_length]

/-- C10: the four parallel cache lists have equal lengths after construction
and after every `load_registered_faces` / `refresh_cache` call; consequently
on every successful recognition the argmin index is a valid index into all
four lists and the `student_id`, `student_name` and `student` fields of the
result are the entries of the three companion lists at that same index. -/
theorem parallel_cache_lists_aligned (tol : ℚ) :
    cache_consistent (initialService tol) ∧
    (∀ svc students,
      cache_consistent (load_registered_faces svc students).1) ∧
    (∀ svc students, cache_consistent (refresh_cache svc students).1) ∧
    (∀ (sq : ℚ → ℚ) (svc : FaceRecognitionService) (frame : Frame),
      cache_consistent svc → (recognize_face sq svc frame).success = true →
      ∃ i, i < svc.known_face_encodings.length ∧
        i < svc.known_face_names.length ∧
        i < svc.known_face_ids.length ∧
        i < svc.known_students.length ∧
        (recognize_face sq svc frame).student_id =
          svc.known_face_ids.get? i ∧
        (recognize_face sq svc frame).student_name =
          svc.known_face_names.get? i ∧
        (recognize_face sq svc frame).student = svc.known_students.get? i ∧
        (svc.known_face_ids.get? i).isSome = true ∧
        (svc.known_face_names.get? i).isSome = true ∧
        (svc.known_students.get? i).isSome = true) := by
  refine ⟨by simp [cache_consistent, initialService],
    load_cache_consistent, load_cache_consistent, ?_⟩
  intro sq svc frame hcons hsucc
  by_cases hemp : svc.known_face_encodings.isEmpty
  · simp [recognize_face, hemp, initResult] at hsucc
  · rcases hfl : frame.face_locations with _ | ⟨f, fs⟩
    · simp [recognize_face, hemp, hfl, initResult] at hsucc
    · by_cases hval : is_face_valid svc (maxByArea f fs) = false
      · simp [recognize_face, hemp, hfl, hval, initResult] at hsucc
      · rcases henc : frame.encodingAt (maxByArea f fs) with _ | q
        · simp [recognize_face, hemp, hfl, hval, henc, initResult] at hsucc
        · set dists := face_distance sq svc.known_face_encodings q with hd
          by_cases htol : (dists[argmin dists]?).getD 0 ≤ svc.tolerance
          · have hne : svc.known_face_encodings ≠ [] := by
              intro hnil
              rw [hnil] at hemp
              simp at hemp
            have hdne : dists ≠ [] := by
              rw [hd, face_distance]
              simpa using hne
            have hdlen : dists.length = svc.known_face_encodings.length := by
              rw [hd, face_distance, List.length_map]
            have hlt : argmin dists < svc.known_face_encodings.length := by
              rw [← hdlen]
              exact argmin_lt_length dists hdne
            obtain ⟨hc1, hc2, hc3⟩ := hcons
            refine ⟨argmin dists, hlt, by omega, by omega, by omega,
              ?_, ?_, ?_, ?_, ?_, ?_⟩
            · simp [recognize_face, hemp, hfl, hval, henc, ← hd, htol,
                List.get?_eq_getElem?]
            · simp [recognize_face, hemp, hfl, hval, henc, ← hd, htol,
                List.get?_eq_getElem?]
            · simp [recognize_face, hemp, hfl, hval, henc, ← hd, htol,
                List.get?_eq_getElem?]
            · rw [List.get?_eq_get (by omega)]
              rfl
            · rw [List.get?_eq_get (by omega)]
              rfl
            · rw [List.get?_eq_get (by omega)]
              rfl
          · simp [recognize_face, hemp, hfl, hval, henc, ← hd, htol,
              initResult] at hsucc

theorem parallel_cache_lists_aligned_witness :
    ∃ i, i < witnessService.known_face_encodings.length ∧
      i < witnessService.known_face_names.length ∧
      i < witnessService.known_face_ids.length ∧
      i < witnessService.known_students.length ∧
      (recognize_face (fun x => x) witnessService witnessFrame).student_id =
        witnessService.known_face_ids.get? i ∧
      (recognize_face (fun x => x) witnessService
        witnessFrame).student_name =
        witnessService.known_face_names.get? i ∧
      (recognize_face (fun x => x) witnessService witnessFrame).student =
        witnessService.known_students.get? i ∧
      (witnessService.known_face_ids.get? i).isSome = true ∧
      (witnessService.known_face_names.get? i).isSome = true ∧
      (witnessService.known_students.get? i).isSome = true :=
  (parallel_cache_lists_aligned 0).2.2.2 (fun x => x) witnessService
    witnessFrame ⟨rfl, rfl, rfl⟩
    (by norm_num [recognize_face, witnessService, witnessFrame, initResult,
      face_distance, argmin, maxByArea, is_face_valid])
